import Mathlib

/-!
Verification development for the Alist file-management plugin
(`src/main.py`).  The Python source is shallowly embedded: every pure
computation becomes a Lean function on the same data, stateful code
becomes explicit state passing, and the network / filesystem are
oracle parameters.  Machine behaviour irrelevant to the claims
(logging, message formatting of floats, chat transport) is not
modelled; remote calls are recorded in an explicit trace.
-/

/-! ## String helpers (Python `str` = `String`, operations on `.data`) -/

/-- Python `s.rstrip("/")` on the character list. -/
def rstripSlashes (l : List Char) : List Char :=
  (l.reverse.dropWhile (fun c => c = '/')).reverse

/-- Python `s.startswith(p)`. -/
def strStartsWith (s p : String) : Bool :=
  p.data.isPrefixOf s.data

/-- Python `s.endswith(p)`. -/
def strEndsWith (s p : String) : Bool :=
  p.data.isSuffixOf s.data

/-- Python substring containment `sub in s`. -/
def strContains (s sub : String) : Bool :=
  (List.range (s.data.length + 1)).any (fun i => sub.data.isPrefixOf (s.data.drop i))

/-- Python `s[:n]`. -/
def strTake (s : String) (n : Nat) : String :=
  ⟨s.data.take n⟩

/-- Python `s[:-n]` (drop the last `n` characters). -/
def strDropRight (s : String) (n : Nat) : String :=
  ⟨s.data.take (s.data.length - n)⟩

/-- Python `s.isdigit()` restricted to ASCII decimal digits (the only
digits produced by the chat command layer). -/
def strIsDigit (s : String) : Bool :=
  !s.data.isEmpty && s.data.all (fun c => c.isDigit)

/-- Python `int(s)` for a string of ASCII digits. -/
def strToNat (s : String) : Nat :=
  s.data.foldl (fun n c => n * 10 + (c.toNat - 48)) 0

/-- Python `s.split(",")` on the character list. -/
def splitComma : List Char → List (List Char)
  | [] => [[]]
  | c :: cs =>
    if c = ',' then [] :: splitComma cs
    else
      match splitComma cs with
      | [] => [[c]]
      | g :: gs => (c :: g) :: gs

/-- Python `s.split(",")`. -/
def strSplitComma (s : String) : List String :=
  (splitComma s.data).map (fun l => ⟨l⟩)

/-! ## Data model -/

/-- One remote filesystem node as returned by the Alist API
(`name`, `is_dir`, `size` are the fields the plugin reads for
navigation and transfer decisions). -/
structure Entry where
  name : String
  is_dir : Bool
  size : Nat
deriving DecidableEq, Repr

/-- Per-user navigation state
(`self.user_navigation_state[user_id]`, `main.py` lines 425-426 and 512-520):
`current_path`, the indexed `items`, and the `parent_paths` history stack
(Python list: push with `append`, pop from the end). -/
structure NavState where
  current_path : String
  items : List Entry
  parent_paths : List String
deriving DecidableEq, Repr

/-- Per-user upload state
(`self.user_upload_state[user_id]`, lines 428-429 and 552-556). -/
structure UploadState where
  waiting : Bool
  target_path : String
deriving DecidableEq, Repr

/-- The whole per-user mutable state a command can read or write. -/
structure UserState where
  nav : NavState
  upload : UploadState
deriving DecidableEq, Repr

/-- Embeds `_get_user_navigation_state` default for a fresh user (lines 514-519). -/
def fresh_nav_state : NavState :=
  { current_path := "/", items := [], parent_paths := [] }

/-- Embeds `_get_user_upload_state` default for a fresh user (lines 554-555). -/
def fresh_upload_state : UploadState :=
  { waiting := false, target_path := "/" }

/-! ## NavigationSession -/

/-- Embeds `_is_forward_navigation` (lines 536-543): strip trailing slashes from
both paths; the Python ternary
`new.startswith(current + "/") if current != "/" else new.startswith("/")`
tests the already-stripped `current` against `"/"`. -/
def is_forward_navigation (current_path new_path : String) : Bool :=
  let current := rstripSlashes current_path.data
  let new1 := rstripSlashes new_path.data
  if current ≠ ['/'] then (current ++ ['/']).isPrefixOf new1
  else ['/'].isPrefixOf new1

/-- The strict-descendant test in the words of the specification: the new
path stripped of its trailing slash starts with `currentPath.rstrip('/') + '/'`,
or `currentPath` is `"/"` and the (stripped) new path starts with `"/"`. -/
def strict_descendant_spec (current_path new_path : String) : Bool :=
  (rstripSlashes current_path.data ++ ['/']).isPrefixOf (rstripSlashes new_path.data)
  || (current_path = "/" && ['/'].isPrefixOf (rstripSlashes new_path.data))

/-- Embeds `_update_user_navigation_state` (lines 522-534): on a path change,
push the old current path onto the history exactly when the move is
forward navigation; always replace the indexed items. -/
def update_user_navigation_state (nav : NavState) (path : String)
    (items : List Entry) : NavState :=
  if path ≠ nav.current_path then
    { current_path := path,
      items := items,
      parent_paths :=
        if is_forward_navigation nav.current_path path then
          nav.parent_paths ++ [nav.current_path]
        else nav.parent_paths }
  else { nav with items := items }

/-- Embeds `_get_item_by_number` (lines 545-550): 1-based index into the current
items, `none` outside `1 <= number <= len(items)`.  Python `int` is `Int`. -/
def get_item_by_number (nav : NavState) (number : Int) : Option Entry :=
  if 1 ≤ number ∧ number ≤ (nav.items.length : Int) then
    nav.items.get? (number - 1).toNat
  else none

/-- Embeds `_set_user_upload_waiting` (lines 558-564); the Python default for
`target_path` is `"/"`, written explicitly at each call site here. -/
def set_user_upload_waiting (waiting : Bool) (target_path : String) : UploadState :=
  { waiting := waiting, target_path := target_path }

/-- The directories-before-files regrouping `_format_file_list` applies
before numbering (lines 590-595): both groups keep their relative order. -/
def sort_dirs_first (files : List Entry) : List Entry :=
  files.filter (fun f => f.is_dir) ++ files.filter (fun f => !f.is_dir)

/-- Joining the current path and an entry name, as done in
`_download_file` (lines 684-688) and `list_files` (lines 1108-1112). -/
def join_path (current_path file_name : String) : String :=
  if strEndsWith current_path "/" then current_path ++ file_name
  else current_path ++ "/" ++ file_name

/-- Embeds `_validate_config` (lines 508-510): Python truthiness of the URL string. -/
def validate_config_url (alist_url : String) : Bool :=
  !(alist_url == "")

/-! ## Small sanity examples (concrete evaluations of the embedding) -/

example : is_forward_navigation "/a" "/a/b" = true := by decide
example : is_forward_navigation "/a/b" "/c" = false := by decide
example : is_forward_navigation "/" "/a" = true := by decide
example : is_forward_navigation "/a" "/ab" = false := by decide
example : update_user_navigation_state ⟨"/a", [], []⟩ "/a/b" [] =
    ⟨"/a/b", [], ["/a"]⟩ := by decide
example : update_user_navigation_state ⟨"/a/b", [], ["/a"]⟩ "/c" [] =
    ⟨"/c", [], ["/a"]⟩ := by decide
example : get_item_by_number ⟨"/", [⟨"x", false, 3⟩], []⟩ 1 = some ⟨"x", false, 3⟩ := by decide
example : get_item_by_number ⟨"/", [⟨"x", false, 3⟩], []⟩ 2 = none := by decide
example : get_item_by_number ⟨"/", [⟨"x", false, 3⟩], []⟩ 0 = none := by decide
example : strIsDigit "12" = true ∧ strToNat "12" = 12 ∧ strIsDigit "/a" = false := by decide
example : strSplitComma ".txt,.pdf" = [".txt", ".pdf"] := by decide

/-! ## MD5 (`hashlib.md5`), used by `CacheManager._get_cache_key`
(lines 284-287) to fingerprint `f"{url}:{path}:{user_id}"`. -/

/-- Modulus for 32-bit words. -/
def pow32 : Nat := 4294967296

/-- Addition modulo 2^32. -/
def add32 (a b : Nat) : Nat := (a + b) % pow32

/-- Bitwise complement of a 32-bit word. -/
def not32 (a : Nat) : Nat := 4294967295 - a % pow32

/-- Left rotation of a 32-bit word by `n` (for `0 < n < 32`): the two
summands occupy disjoint bit ranges. -/
def rotl32 (x n : Nat) : Nat :=
  (x % pow32) * 2 ^ n % pow32 + x % pow32 / 2 ^ (32 - n)

/-- UTF-8 encoding of one character (Python `str.encode("utf-8")`). -/
def utf8Bytes (c : Char) : List Nat :=
  let n := c.toNat
  if n < 128 then [n]
  else if n < 2048 then [192 + n / 64, 128 + n % 64]
  else if n < 65536 then [224 + n / 4096, 128 + n / 64 % 64, 128 + n % 64]
  else [240 + n / 262144, 128 + n / 4096 % 64, 128 + n / 64 % 64, 128 + n % 64]

/-- UTF-8 byte sequence of a string. -/
def strUtf8 (s : String) : List Nat :=
  (s.data.map utf8Bytes).flatten

/-- Little-endian byte decomposition, `k` bytes. -/
def toLEBytes (n : Nat) : Nat → List Nat
  | 0 => []
  | k + 1 => n % 256 :: toLEBytes (n / 256) k

/-- MD5 padding: append `0x80`, zero-pad to 56 mod 64, then the bit
length as a 64-bit little-endian quantity. -/
def md5pad (msg : List Nat) : List Nat :=
  let len := msg.length
  let padlen := (56 + 64 - (len + 1) % 64) % 64
  msg ++ [128] ++ List.replicate padlen 0 ++ toLEBytes (len * 8 % 2 ^ 64) 8

/-- Little-endian 32-bit word from (up to) four bytes. -/
def leWord (b : List Nat) : Nat :=
  b.getD 0 0 + b.getD 1 0 * 256 + b.getD 2 0 * 65536 + b.getD 3 0 * 16777216

/-- The sixteen message words of one 64-byte block. -/
def md5Words (block : List Nat) : List Nat :=
  (List.range 16).map (fun i => leWord ((block.drop (4 * i)).take 4))

/-- MD5 round constants (floor(2^32 * abs(sin(i+1)))). -/
def md5K : List Nat :=
  [0xd76aa478, 0xe8c7b756, 0x242070db, 0xc1bdceee,
   0xf57c0faf, 0x4787c62a, 0xa8304613, 0xfd469501,
   0x698098d8, 0x8b44f7af, 0xffff5bb1, 0x895cd7be,
   0x6b901122, 0xfd987193, 0xa679438e, 0x49b40821,
   0xf61e2562, 0xc040b340, 0x265e5a51, 0xe9b6c7aa,
   0xd62f105d, 0x02441453, 0xd8a1e681, 0xe7d3fbc8,
   0x21e1cde6, 0xc33707d6, 0xf4d50d87, 0x455a14ed,
   0xa9e3e905, 0xfcefa3f8, 0x676f02d9, 0x8d2a4c8a,
   0xfffa3942, 0x8771f681, 0x6d9d6122, 0xfde5380c,
   0xa4beea44, 0x4bdecfa9, 0xf6bb4b60, 0xbebfbc70,
   0x289b7ec6, 0xeaa127fa, 0xd4ef3085, 0x04881d05,
   0xd9d4d039, 0xe6db99e5, 0x1fa27cf8, 0xc4ac5665,
   0xf4292244, 0x432aff97, 0xab9423a7, 0xfc93a039,
   0x655b59c3, 0x8f0ccc92, 0xffeff47d, 0x85845dd1,
   0x6fa87e4f, 0xfe2ce6e0, 0xa3014314, 0x4e0811a1,
   0xf7537e82, 0xbd3af235, 0x2ad7d2bb, 0xeb86d391]

/-- MD5 per-round left-rotation amounts. -/
def md5S : List Nat :=
  [7, 12, 17, 22, 7, 12, 17, 22, 7, 12, 17, 22, 7, 12, 17, 22,
   5, 9, 14, 20, 5, 9, 14, 20, 5, 9, 14, 20, 5, 9, 14, 20,
   4, 11, 16, 23, 4, 11, 16, 23, 4, 11, 16, 23, 4, 11, 16, 23,
   6, 10, 15, 21, 6, 10, 15, 21, 6, 10, 15, 21, 6, 10, 15, 21]

/-- The four MD5 working registers. -/
structure MD5State where
  a : Nat
  b : Nat
  c : Nat
  d : Nat

/-- Nonlinear mixing function of round `i`. -/
def md5Mix (i x y z : Nat) : Nat :=
  if i < 16 then Nat.lor (Nat.land x y) (Nat.land (not32 x) z)
  else if i < 32 then Nat.lor (Nat.land x z) (Nat.land y (not32 z))
  else if i < 48 then Nat.xor (Nat.xor x y) z
  else Nat.xor y (Nat.lor x (not32 z))

/-- Message-word schedule of round `i`. -/
def md5MsgIndex (i : Nat) : Nat :=
  if i < 16 then i
  else if i < 32 then (5 * i + 1) % 16
  else if i < 48 then (3 * i + 5) % 16
  else 7 * i % 16

/-- One MD5 round. -/
def md5Step (m : List Nat) (st : MD5State) (i : Nat) : MD5State :=
  let f := add32 (add32 (add32 (md5Mix i st.b st.c st.d) st.a) (md5K.getD i 0))
                 (m.getD (md5MsgIndex i) 0)
  { a := st.d, b := add32 st.b (rotl32 f (md5S.getD i 0)), c := st.b, d := st.c }

/-- Compression of one 64-byte block. -/
def md5Block (h : MD5State) (block : List Nat) : MD5State :=
  let m := md5Words block
  let r := (List.range 64).foldl (md5Step m) h
  { a := add32 h.a r.a, b := add32 h.b r.b, c := add32 h.c r.c, d := add32 h.d r.d }

/-- MD5 initial register values. -/
def md5Init : MD5State :=
  { a := 0x67452301, b := 0xefcdab89, c := 0x98badcfe, d := 0x10325476 }

/-- Full 16-byte MD5 digest of a byte sequence. -/
def md5Digest (msg : List Nat) : List Nat :=
  let padded := md5pad msg
  let final := (List.range (padded.length / 64)).foldl
    (fun h i => md5Block h ((padded.drop (64 * i)).take 64)) md5Init
  toLEBytes final.a 4 ++ toLEBytes final.b 4 ++ toLEBytes final.c 4 ++ toLEBytes final.d 4

/-- Lowercase hexadecimal character of a nibble. -/
def hexChar (n : Nat) : Char :=
  if n < 10 then Char.ofNat (48 + n) else Char.ofNat (87 + n)

/-- Python `hashlib.md5(bytes).hexdigest()`. -/
def md5Hexdigest (msg : List Nat) : String :=
  ⟨((md5Digest msg).map (fun b => [hexChar (b / 16), hexChar (b % 16)])).flatten⟩

set_option maxRecDepth 40000 in
example : md5Hexdigest (strUtf8 "abc") = "900150983cd24fb0d6963f7d28e17f72" := by decide
set_option maxRecDepth 40000 in
example : md5Hexdigest (strUtf8 "") = "d41d8cd98f00b204e9800998ecf8427e" := by decide

/-! ## CacheManager (lines 273-356)

The cache directory is modelled as a list of named files; one file per
name (writes overwrite).  `mtime` is the wall-clock write time used by
the staleness test; `timestamp` is the value stored inside the JSON
payload (written by `set_cache`, never read back).  Wall-clock times are
integers here (`time.time()` is a real; only differences are compared). -/

/-- One cached JSON file: its filesystem mtime and the stored payload. -/
structure CacheFile (α : Type) where
  mtime : Int
  timestamp : Int
  data : α
deriving DecidableEq, Repr

/-- The cache directory: filename → file, one file per name. -/
structure CacheStore (α : Type) where
  files : List (String × CacheFile α)
deriving DecidableEq, Repr

/-- Lookup of a file by name (`os.path.exists` + read). -/
def storeLookup {α : Type} (st : CacheStore α) (fn : String) : Option (CacheFile α) :=
  (st.files.find? (fun p => p.1 == fn)).map (fun p => p.2)

/-- Removal of a file by name (`os.remove`). -/
def storeErase {α : Type} (st : CacheStore α) (fn : String) : CacheStore α :=
  ⟨st.files.filter (fun p => !(p.1 == fn))⟩

/-- Overwriting write of a file (`open(..., "w")`). -/
def storeWrite {α : Type} (st : CacheStore α) (fn : String) (cf : CacheFile α) :
    CacheStore α :=
  ⟨(fn, cf) :: (st.files.filter (fun p => !(p.1 == fn)))⟩

/-- Embeds `CacheManager._get_cache_key` (lines 284-287):
`hashlib.md5(f"{url}:{path}:{user_id}".encode("utf-8")).hexdigest()`. -/
def get_cache_key (url path user_id : String) : String :=
  md5Hexdigest (strUtf8 (url ++ ":" ++ path ++ ":" ++ user_id))

/-- Embeds `CacheManager._get_cache_file` (lines 289-291). -/
def get_cache_file (cache_key : String) : String :=
  cache_key ++ ".json"

/-- Embeds `CacheManager.get_cache` (lines 293-317): miss when the file is
absent; when `now - mtime > max_age` delete the file and miss; otherwise
return the stored payload.  The call sites pass `cache_duration`
(default 300). -/
def get_cache {α : Type} (st : CacheStore α) (url path user_id : String)
    (now max_age : Int) : Option α × CacheStore α :=
  let fn := get_cache_file (get_cache_key url path user_id)
  match storeLookup st fn with
  | none => (none, st)
  | some cf =>
    if now - cf.mtime > max_age then (none, storeErase st fn)
    else (some cf.data, st)

/-- Embeds `CacheManager.set_cache` (lines 319-330): write
`{"timestamp": now, "data": data}`; the file's mtime becomes `now`. -/
def set_cache {α : Type} (st : CacheStore α) (url path user_id : String)
    (now : Int) (data : α) : CacheStore α :=
  storeWrite st (get_cache_file (get_cache_key url path user_id))
    { mtime := now, timestamp := now, data := data }

/-- Embeds `CacheManager.clear_cache` (lines 332-356).  With a user id, a
`.json` file is removed when the raw user id occurs inside
`md5(f"test:test:{user_id}")` or when the file's key starts with the
first 8 hex digits of that test digest; with no user id every `.json`
file is removed. -/
def clear_cache {α : Type} (st : CacheStore α) (user_id : Option String) :
    CacheStore α :=
  match user_id with
  | some uid =>
    ⟨st.files.filter (fun p =>
      !(strEndsWith p.1 ".json" &&
        (strContains (get_cache_key "test" "test" uid) uid ||
         strStartsWith (strDropRight p.1 5)
           (strTake (get_cache_key "test" "test" uid) 8))))⟩
  | none => ⟨st.files.filter (fun p => !(strEndsWith p.1 ".json"))⟩

/-- The matching heuristic `clear_cache` actually applies to a `.json`
filename, named for the corrected statement of the user-scoped clear. -/
def clear_match (fn : String) (uid : String) : Bool :=
  strEndsWith fn ".json" &&
  (strContains (get_cache_key "test" "test" uid) uid ||
   strStartsWith (strDropRight fn 5) (strTake (get_cache_key "test" "test" uid) 8))

/-! ## ConfigResolver (`get_user_config`, lines 431-506) -/

/-- The WebUI `global_settings` block as `get_webui_config` reads it:
`none` models an absent key (or absent plugin config), in which case the
call-site default applies.  `allowed_extensions` may be stored either as
a comma-separated string or as a list (the code checks `isinstance`). -/
structure WebuiSettings where
  require_user_auth : Option Bool
  default_alist_url : Option String
  default_username : Option String
  default_password : Option String
  default_token : Option String
  max_display_files : Option Nat
  allowed_extensions : Option (String ⊕ List String)
  enable_preview : Option Bool
deriving DecidableEq, Repr

/-- A user's stored configuration after `UserConfigManager.load_config`
(lines 244-257) merged it over the per-user defaults (lines 221-242):
every key is present, unset ones holding the defaults (empty strings). -/
structure UserConfig where
  alist_url : String
  username : String
  password : String
  token : String
  max_display_files : Nat
  allowed_extensions : List String
  enable_preview : Bool
  setup_completed : Bool
deriving DecidableEq, Repr

/-- The effective configuration `get_user_config` returns. -/
structure EffectiveConfig where
  alist_url : String
  username : String
  password : String
  token : String
  max_display_files : Nat
  allowed_extensions : List String
  enable_preview : Bool
deriving DecidableEq, Repr

/-- The call-site default for `allowed_extensions`
(lines 463-466). -/
def default_allowed_extensions : String :=
  ".txt,.pdf,.doc,.docx,.zip,.rar,.jpg,.png,.gif,.mp4,.mp3"

/-- The `isinstance(allowed_extensions, str)` split applied at
lines 486-490 and 502-504. -/
def parse_allowed_extensions : String ⊕ List String → List String
  | Sum.inl s => strSplitComma s
  | Sum.inr l => l

/-- Embeds `get_user_config` (lines 454-506).  With user auth required,
start from the user's stored config, fall back to the WebUI defaults for
an empty `alist_url`/`username`/`password`/`token` (only when the WebUI
default is itself non-empty), and overwrite `max_display_files`,
`allowed_extensions` and `enable_preview` with the WebUI values.
Without user auth, build the result from the WebUI values alone. -/
def get_user_config (w : WebuiSettings) (u : UserConfig) : EffectiveConfig :=
  let require_user_auth := w.require_user_auth.getD true
  let default_alist_url := w.default_alist_url.getD ""
  let default_username := w.default_username.getD ""
  let default_password := w.default_password.getD ""
  let default_token := w.default_token.getD ""
  let max_display_files := w.max_display_files.getD 20
  let allowed_extensions := w.allowed_extensions.getD (Sum.inl default_allowed_extensions)
  let enable_preview := w.enable_preview.getD true
  if require_user_auth then
    { alist_url :=
        if u.alist_url = "" ∧ default_alist_url ≠ "" then default_alist_url
        else u.alist_url,
      username :=
        if u.username = "" ∧ default_username ≠ "" then default_username
        else u.username,
      password :=
        if u.password = "" ∧ default_password ≠ "" then default_password
        else u.password,
      token :=
        if u.token = "" ∧ default_token ≠ "" then default_token
        else u.token,
      max_display_files := max_display_files,
      allowed_extensions := parse_allowed_extensions allowed_extensions,
      enable_preview := enable_preview }
  else
    { alist_url := default_alist_url,
      username := default_username,
      password := default_password,
      token := default_token,
      max_display_files := max_display_files,
      allowed_extensions := parse_allowed_extensions allowed_extensions,
      enable_preview := enable_preview }

/-- Embeds `_validate_config` (lines 508-510) on the effective config. -/
def validate_config (c : EffectiveConfig) : Bool :=
  validate_config_url c.alist_url

/-! ## TransferOrchestrator (`_download_file` lines 663-765,
`_upload_file` lines 767-833) and the command layer.

Network effects are oracles; every call the code would issue against the
remote Alist server (or the direct-download URL) is recorded in a trace
of `RemoteCall`s, in program order. -/

/-- One remote operation issued through `AlistClient` or `aiohttp`. -/
inductive RemoteCall where
  | getDownloadUrl (path : String)
  | statFile (path : String)
  | httpGet (url : String)
  | putFile (target_path : String) (file_name : String)
  | listFiles (path : String)
deriving DecidableEq, Repr

/-- Oracle for one download run: the result of
`client.get_download_url(file_path)` and the HTTP status of the
follow-up GET. -/
structure DownloadOracle where
  download_url : Option String
  http_status : Nat
deriving DecidableEq, Repr

/-- Outcome of `_download_file`, as reported to the user. -/
inductive DownloadResult where
  | sizeExceeded (limit_mb : Nat) (size_bytes : Nat)
  | noUrl
  | httpError (status : Nat)
  | sent (file_name : String)
deriving DecidableEq, Repr

/-- Embeds `_download_file` (lines 663-765): the size guard
(`max_download_size`, WebUI default 50 MiB) runs before any client is
built; then the download locator is resolved for
`current_path` joined with the entry name, the body is fetched, and the
file is handed to the transport.  Streaming internals (8 KiB chunks,
progress messages, temp-file cleanup) do not affect the outcome and are
not modelled. -/
def download_file (file_name : String) (file_size : Nat) (current_path : String)
    (max_download_size : Option Nat) (orc : DownloadOracle) :
    DownloadResult × List RemoteCall :=
  let max_mb := max_download_size.getD 50
  if file_size > max_mb * 1024 * 1024 then
    (DownloadResult.sizeExceeded max_mb file_size, [])
  else
    let file_path := join_path current_path file_name
    match orc.download_url with
    | none => (DownloadResult.noUrl, [RemoteCall.getDownloadUrl file_path])
    | some url =>
      if orc.http_status = 200 then
        (DownloadResult.sent file_name,
         [RemoteCall.getDownloadUrl file_path, RemoteCall.httpGet url])
      else
        (DownloadResult.httpError orc.http_status,
         [RemoteCall.getDownloadUrl file_path, RemoteCall.httpGet url])

/-- Outcome of `_upload_file`, as reported to the user. -/
inductive UploadResult where
  | noLocalFile
  | sizeExceeded (limit_mb : Nat) (size_bytes : Nat)
  | uploadFailed
  | uploaded (refreshed : Option (List Entry))
deriving DecidableEq, Repr

/-- Embeds `_upload_file` (lines 767-833).  `local_file` is the
attachment fetched from the chat transport (`file_component.get_file()`,
not a remote Alist call) with its on-disk size; the size guard
(`max_upload_size`, WebUI default 100 MiB) runs before any client is
built.  On a successful put the waiting flag is cleared and the target
directory is re-listed (bypassing the cache) through
`_format_file_list`, which re-sorts, trims and stores the items. -/
def upload_file (st : UserState) (cfg : EffectiveConfig) (file_name : String)
    (local_file : Option (String × Nat)) (max_upload_size : Option Nat)
    (put_ok : Bool) (relist : Option (List Entry)) :
    UploadResult × UserState × List RemoteCall :=
  let target_path := st.upload.target_path
  match local_file with
  | none => (UploadResult.noLocalFile, st, [])
  | some (_, file_size) =>
    let max_mb := max_upload_size.getD 100
    if file_size > max_mb * 1024 * 1024 then
      (UploadResult.sizeExceeded max_mb file_size, st, [])
    else if put_ok then
      let st1 : UserState := { st with upload := set_user_upload_waiting false "/" }
      match relist with
      | some files =>
        let shown := (sort_dirs_first files).take cfg.max_display_files
        (UploadResult.uploaded (some files),
         { st1 with nav := update_user_navigation_state st1.nav target_path shown },
         [RemoteCall.putFile target_path file_name, RemoteCall.listFiles target_path])
      | none =>
        (UploadResult.uploaded none, st1,
         [RemoteCall.putFile target_path file_name, RemoteCall.listFiles target_path])
    else
      (UploadResult.uploadFailed, st,
       [RemoteCall.putFile target_path file_name])

/-- Outcome of the `quit` command. -/
inductive QuitResult where
  | notConfigured
  | alreadyAtRoot
  | returned (path : String)
  | connectionFailure (path : String)
deriving DecidableEq, Repr

/-- Embeds `quit_navigation` (lines 1370-1420).  With an empty history
the command reports "already at root" and changes nothing.  Otherwise it
pops the last pushed path, then re-lists it: on success the state points
at that path with the re-listed (sorted, trimmed) items — the final
items pass through `_format_file_list`'s call to
`_update_user_navigation_state`, a no-op on the history since the
current path already equals the listed path; on failure the pop has
already happened when the error is reported.  `cfg.max_display_files`
is the WebUI `max_display_files` (both reads agree, see
`get_user_config`). -/
def quit_navigation (st : UserState) (cfg : EffectiveConfig)
    (net : String → Option (List Entry)) :
    QuitResult × UserState × List RemoteCall :=
  if !(validate_config cfg) then (QuitResult.notConfigured, st, [])
  else
    match st.nav.parent_paths.getLast? with
    | none => (QuitResult.alreadyAtRoot, st, [])
    | some previous_path =>
      let popped : NavState := { st.nav with parent_paths := st.nav.parent_paths.dropLast }
      match net previous_path with
      | none =>
        (QuitResult.connectionFailure previous_path, { st with nav := popped },
         [RemoteCall.listFiles previous_path])
      | some files =>
        let nav1 : NavState :=
          { popped with current_path := previous_path,
                        items := files.take cfg.max_display_files }
        let shown := (sort_dirs_first files).take cfg.max_display_files
        (QuitResult.returned previous_path,
         { st with nav := update_user_navigation_state nav1 previous_path shown },
         [RemoteCall.listFiles previous_path])

/-- Outcome of the `download` command. -/
inductive DownloadCmdResult where
  | notConfigured
  | invalidIndex (number : Nat)
  | isDirectoryError (number : Nat)
  | fileDownload (r : DownloadResult)
  | linkShown (url : String)
  | linkFailed (path : String)
deriving DecidableEq, Repr

/-- Embeds `get_download_link` (lines 1292-1368).  A digit argument is
resolved against the current indexed listing: a directory entry is
rejected with an error before any client is built; a file entry enters
`_download_file`.  A non-digit argument asks the client for a download
locator of that path (the display-only follow-up `get_file_info` is
summarised by `statFile` in the trace). -/
def get_download_link (st : UserState) (cfg : EffectiveConfig) (arg : String)
    (max_download_size : Option Nat) (orc : DownloadOracle) :
    DownloadCmdResult × UserState × List RemoteCall :=
  if !(validate_config cfg) then (DownloadCmdResult.notConfigured, st, [])
  else if strIsDigit arg then
    let number := strToNat arg
    match get_item_by_number st.nav (number : Int) with
    | none => (DownloadCmdResult.invalidIndex number, st, [])
    | some item =>
      if item.is_dir then (DownloadCmdResult.isDirectoryError number, st, [])
      else
        let r := download_file item.name item.size st.nav.current_path
                   max_download_size orc
        (DownloadCmdResult.fileDownload r.1, st, r.2)
  else
    match orc.download_url with
    | some url =>
      (DownloadCmdResult.linkShown url, st,
       [RemoteCall.getDownloadUrl arg, RemoteCall.statFile arg])
    | none =>
      (DownloadCmdResult.linkFailed arg, st, [RemoteCall.getDownloadUrl arg])

/-- Outcome of the `search` command. -/
inductive SearchResult where
  | emptyKeyword
  | notConfigured
  | listed (shown : List Entry)
  | nothingFound (keyword : String)
deriving DecidableEq, Repr

/-- Embeds `search_files` (lines 1171-1226): keyword and configuration
guards, then the remote search; results are displayed with their own
numbering, trimmed to `max_display_files`.  The command never reads or
writes the navigation or upload state, which is threaded unchanged. -/
def search_files (st : UserState) (cfg : EffectiveConfig) (keyword : String)
    (results : List Entry) : SearchResult × UserState :=
  if keyword = "" then (SearchResult.emptyKeyword, st)
  else if !(validate_config cfg) then (SearchResult.notConfigured, st)
  else if results ≠ [] then
    (SearchResult.listed (results.take cfg.max_display_files), st)
  else (SearchResult.nothingFound keyword, st)

/-! ## Upload-wait events (`upload_command` lines 1422-1487,
`handle_file_message` lines 1489-1522)

The deferred timer of `upload_command` sleeps 600 seconds and then
re-reads the CURRENT upload state; events are listed in the order they
execute, the timer-expiry event occurring 600 seconds after the start
event when nothing cancelled the wait earlier. -/

/-- One event touching a user's upload-wait state. -/
inductive UploadEvent where
  | startUpload (current_path : String)
  | cancelCommand
  | timerFire
  | fileArrive (configured : Bool) (upload_ok : Bool)
deriving DecidableEq, Repr

/-- Embeds the state effect of each event; the boolean records whether an
upload was attempted (a client built and a put issued).
`startUpload` is `_set_user_upload_waiting(user_id, True, current_path)`
(line 1456); `cancelCommand` clears only when waiting (lines 1432-1439);
`timerFire` is `auto_cancel_upload` (lines 1474-1482), re-checking
`waiting` at fire time; `fileArrive` is `handle_file_message`: ignored
unless waiting, cleared without attempt when unconfigured, and on an
attempt the flag is cleared only by success (lines 1489-1522, 801-828). -/
def upload_step (st : UploadState) : UploadEvent → UploadState × Bool
  | UploadEvent.startUpload current_path =>
    (set_user_upload_waiting true current_path, false)
  | UploadEvent.cancelCommand =>
    if st.waiting then (set_user_upload_waiting false "/", false) else (st, false)
  | UploadEvent.timerFire =>
    if st.waiting then (set_user_upload_waiting false "/", false) else (st, false)
  | UploadEvent.fileArrive configured upload_ok =>
    if !st.waiting then (st, false)
    else if !configured then (set_user_upload_waiting false "/", false)
    else if upload_ok then (set_user_upload_waiting false "/", true)
    else (st, true)

/-- Runs a sequence of upload events; the boolean records whether any
upload was attempted along the way. -/
def upload_run (st : UploadState) : List UploadEvent → UploadState × Bool
  | [] => (st, false)
  | e :: es =>
    let r1 := upload_step st e
    let r2 := upload_run r1.1 es
    (r2.1, r1.2 || r2.2)

/-! ## Concrete fixtures used by witnesses and counterexamples -/

/-- A configured effective config with the defaults of the WebUI layer. -/
def cfgX : EffectiveConfig :=
  { alist_url := "http://x", username := "", password := "", token := "",
    max_display_files := 20, allowed_extensions := [], enable_preview := true }

/-- A network oracle whose every listing succeeds with an empty directory. -/
def netEmptyDir : String → Option (List Entry) := fun _ => some []

/-- A network oracle whose every listing fails. -/
def netDown : String → Option (List Entry) := fun _ => none

/-- A user one level deep with `"/a"` on the history stack. -/
def stDeep : UserState :=
  { nav := { current_path := "/a/b", items := [], parent_paths := ["/a"] },
    upload := fresh_upload_state }

/-- A user at the root with an empty history stack. -/
def stRoot : UserState :=
  { nav := { current_path := "/a", items := [], parent_paths := [] },
    upload := fresh_upload_state }

/-- A directory entry and a small file entry. -/
def dirEntry : Entry := { name := "docs", is_dir := true, size := 0 }

/-- A small file entry. -/
def fileEntry : Entry := { name := "r.txt", is_dir := false, size := 3 }

/-- A user whose current listing has the directory at index 1 and the
file at index 2. -/
def stListed : UserState :=
  { nav := { current_path := "/a", items := [dirEntry, fileEntry], parent_paths := [] },
    upload := fresh_upload_state }

/-- A benign download oracle. -/
def orcOk : DownloadOracle := { download_url := some "http://x/d/f", http_status := 200 }

/-- The cache filename `set_cache` would create for user alice's listing
of `/` on server `http://x`. -/
def aliceFileName : String := get_cache_file (get_cache_key "http://x" "/" "alice")

/-- A store holding exactly alice's cached listing. -/
def aliceStore : CacheStore Nat := ⟨[(aliceFileName, ⟨0, 0, 7⟩)]⟩

/-- A store holding exactly bob's cached listing. -/
def bobStore : CacheStore Nat :=
  ⟨[(get_cache_file (get_cache_key "http://x" "/" "bob"), ⟨0, 0, 7⟩)]⟩

/-- A WebUI configuration whose admin set a default server URL. -/
def webuiWithDefault : WebuiSettings :=
  { require_user_auth := none, default_alist_url := some "http://x",
    default_username := none, default_password := none, default_token := none,
    max_display_files := none, allowed_extensions := none, enable_preview := none }

/-- A user who stored nothing (all per-user defaults). -/
def userUnset : UserConfig :=
  { alist_url := "", username := "", password := "", token := "",
    max_display_files := 20, allowed_extensions := [], enable_preview := true,
    setup_completed := false }

/-- The same user after `config set alist_url http://y`. -/
def userSet : UserConfig :=
  { userUnset with alist_url := "http://y", setup_completed := true }

/-! ## Helper lemmas -/

/-- The head surviving `dropWhile` fails the predicate. -/
theorem head_dropWhile_false (p : Char → Bool) :
    ∀ (l : List Char) (a : Char) (t : List Char),
      List.dropWhile p l = a :: t → p a = false := by
  intro l
  induction l with
  | nil => intro a t h; simp [List.dropWhile] at h
  | cons b l ih =>
    intro a t h
    simp only [List.dropWhile] at h
    cases hb : p b with
    | true => rw [hb] at h; exact ih a t h
    | false =>
      rw [hb] at h
      injection h with h1 _
      rw [← h1]; exact hb

/-- Stripping trailing slashes can never produce the single-slash string:
its last character would be a stripped slash. -/
theorem rstripSlashes_ne_slash (l : List Char) : rstripSlashes l ≠ ['/'] := by
  intro h
  unfold rstripSlashes at h
  have h2 : List.dropWhile (fun c => decide (c = '/')) l.reverse = ['/'] := by
    have h3 := congrArg List.reverse h
    simpa using h3
  have h4 := head_dropWhile_false (fun c => decide (c = '/')) l.reverse '/' [] h2
  simp at h4

/-- The per-user fallthrough of `get_user_config` (fall back only when
the WebUI default is non-empty) coincides with plain "user value if set,
else WebUI default". -/
theorem fallthrough_eq (uv dv : String) :
    (if uv = "" ∧ dv ≠ "" then dv else uv) = (if uv = "" then dv else uv) := by
  by_cases h1 : uv = ""
  · by_cases h2 : dv = "" <;> simp [h1, h2]
  · simp [h1]

/-- Looking up the filename just written yields the written file. -/
theorem storeLookup_write_self {α : Type} (st : CacheStore α) (fn : String)
    (cf : CacheFile α) : storeLookup (storeWrite st fn cf) fn = some cf := by
  simp [storeLookup, storeWrite, List.find?]

/-- A name filtered out of the directory is not found. -/
theorem find_filter_self {α : Type} (l : List (String × CacheFile α)) (fn : String) :
    (l.filter (fun p => !(p.1 == fn))).find? (fun p => p.1 == fn) = none := by
  induction l with
  | nil => rfl
  | cons a l ih =>
    by_cases h : a.1 = fn
    · simp [List.filter_cons, h, ih]
    · simp [List.filter_cons, h, List.find?_cons, ih]

/-- Filtering one name out of the directory does not change the lookup
of any other name. -/
theorem find_filter_ne {α : Type} (l : List (String × CacheFile α)) (fn fn' : String)
    (h : fn' ≠ fn) :
    (l.filter (fun p => !(p.1 == fn))).find? (fun p => p.1 == fn') =
      l.find? (fun p => p.1 == fn') := by
  induction l with
  | nil => rfl
  | cons a l ih =>
    have hf : (fn == fn') = false := by
      simp only [beq_eq_false_iff_ne]; exact Ne.symm h
    by_cases ha : a.1 = fn
    · simp [List.filter_cons, List.find?_cons, beq_iff_eq, ha, Ne.symm h, ih]
    · by_cases hb : a.1 = fn'
      · simp [List.filter_cons, List.find?_cons, beq_iff_eq, ha, hb, h]
      · simp [List.filter_cons, List.find?_cons, beq_iff_eq, ha, hb, ih]

/-- Erasing a file removes exactly that name from lookups. -/
theorem storeLookup_erase_self {α : Type} (st : CacheStore α) (fn : String) :
    storeLookup (storeErase st fn) fn = none := by
  simp [storeLookup, storeErase, find_filter_self]

/-- Erasing a file leaves every other name's lookup unchanged. -/
theorem storeLookup_erase_ne {α : Type} (st : CacheStore α) (fn fn' : String)
    (h : fn' ≠ fn) : storeLookup (storeErase st fn) fn' = storeLookup st fn' := by
  simp [storeLookup, storeErase, find_filter_ne _ _ _ h]

/-- The specification's strict-descendant wording and the code's
`_is_forward_navigation` agree on every pair of paths: the code's
root-path `else` branch is unreachable (a stripped path is never `"/"`),
and at `currentPath = "/"` the first disjunct already reduces to the
second. -/
theorem strict_descendant_eq_forward (cur new1 : String) :
    strict_descendant_spec cur new1 = is_forward_navigation cur new1 := by
  simp only [strict_descendant_spec, is_forward_navigation]
  rw [if_pos (rstripSlashes_ne_slash cur.data)]
  by_cases hcur : cur = "/"
  · subst hcur
    have h0 : rstripSlashes "/".data = [] := by decide
    rw [h0]
    simp
  · simp [hcur]

/-! ## Claim theorems -/

/-- Claim C1: a path change into a strict descendant of the current path
(in the spec's wording, proven equal to the code's
`_is_forward_navigation`) pushes the old current path onto the ancestor
stack before switching; any other path change switches `currentPath`
without pushing; `goBack` pops and returns the most recently pushed path
(the history's last element, removed from the stack); and `goBack` on an
empty stack is a no-op reporting "already at root". -/
theorem C1_forward_navigation_and_back :
    (∀ cur new1 : String,
        strict_descendant_spec cur new1 = is_forward_navigation cur new1)
    ∧ (∀ (nav : NavState) (path : String) (items : List Entry),
        path ≠ nav.current_path →
        update_user_navigation_state nav path items =
          { current_path := path, items := items,
            parent_paths :=
              if strict_descendant_spec nav.current_path path then
                nav.parent_paths ++ [nav.current_path]
              else nav.parent_paths })
    ∧ (∀ (st : UserState) (cfg : EffectiveConfig)
          (net : String → Option (List Entry)) (p : String) (files : List Entry),
        validate_config cfg = true →
        st.nav.parent_paths.getLast? = some p →
        net p = some files →
        quit_navigation st cfg net =
          (QuitResult.returned p,
           { st with nav :=
              { current_path := p,
                items := (sort_dirs_first files).take cfg.max_display_files,
                parent_paths := st.nav.parent_paths.dropLast } },
           [RemoteCall.listFiles p]))
    ∧ (∀ (st : UserState) (cfg : EffectiveConfig)
          (net : String → Option (List Entry)),
        validate_config cfg = true →
        st.nav.parent_paths = [] →
        quit_navigation st cfg net = (QuitResult.alreadyAtRoot, st, [])) := by
  refine ⟨strict_descendant_eq_forward, ?_, ?_, ?_⟩
  · intro nav path items h
    rw [update_user_navigation_state, if_pos h, strict_descendant_eq_forward]
  · intro st cfg net p files hcfg hlast hnet
    rw [quit_navigation, hcfg]
    simp only [Bool.not_true, Bool.false_eq_true, if_false, hlast, hnet]
    simp only [update_user_navigation_state]
    rw [if_neg (by intro hc; exact hc rfl)]
  · intro st cfg net hcfg hempty
    rw [quit_navigation, hcfg]
    simp only [Bool.not_true, Bool.false_eq_true, if_false]
    rw [hempty]
    rfl

/-- Witness for C1 at the spec's own example: entering `/a/b` from `/a`
pushes `/a`; entering `/c` from `/a/b` pushes nothing; `goBack` then
returns `/a` and empties the stack; a second `goBack` reports "already
at root" and changes nothing. -/
theorem C1_forward_navigation_and_back_witness :
    update_user_navigation_state ⟨"/a", [], []⟩ "/a/b" [] = ⟨"/a/b", [], ["/a"]⟩
    ∧ update_user_navigation_state ⟨"/a/b", [], ["/a"]⟩ "/c" [] = ⟨"/c", [], ["/a"]⟩
    ∧ quit_navigation stDeep cfgX netEmptyDir =
        (QuitResult.returned "/a",
         { stDeep with nav := { current_path := "/a", items := [], parent_paths := [] } },
         [RemoteCall.listFiles "/a"])
    ∧ quit_navigation stRoot cfgX netEmptyDir =
        (QuitResult.alreadyAtRoot, stRoot, []) := by
  refine ⟨?_, ?_, ?_, ?_⟩
  · rw [C1_forward_navigation_and_back.2.1 ⟨"/a", [], []⟩ "/a/b" [] (by decide)]
    decide
  · rw [C1_forward_navigation_and_back.2.1 ⟨"/a/b", [], ["/a"]⟩ "/c" [] (by decide)]
    decide
  · rw [C1_forward_navigation_and_back.2.2.1 stDeep cfgX netEmptyDir "/a" []
      (by decide) (by decide) rfl]
    decide
  · exact C1_forward_navigation_and_back.2.2.2 stRoot cfgX netEmptyDir
      (by decide) (by decide)

/-- Claim C5: for every user listing and every integer `n` with
`1 <= n <= len(indexedEntries)`, `resolveIndex(n)` returns the entry at
the (1-based) position `n`; for every `n` outside that range it returns
absent. -/
theorem C5_resolve_index :
    (∀ (nav : NavState) (n : Int), 1 ≤ n → n ≤ (nav.items.length : Int) →
        get_item_by_number nav n = nav.items.get? (n - 1).toNat
        ∧ (nav.items.get? (n - 1).toNat).isSome = true)
    ∧ (∀ (nav : NavState) (n : Int), ¬(1 ≤ n ∧ n ≤ (nav.items.length : Int)) →
        get_item_by_number nav n = none) := by
  constructor
  · intro nav n h1 h2
    refine ⟨by rw [get_item_by_number, if_pos ⟨h1, h2⟩], ?_⟩
    have hlt : (n - 1).toNat < nav.items.length := by omega
    rw [List.get?_eq_get hlt]
    rfl
  · intro nav n h
    rw [get_item_by_number, if_neg h]

/-- Witness for C5 on a two-entry listing: indices 1 and 2 resolve to
the first and second entry, indices 0 and 3 are absent. -/
theorem C5_resolve_index_witness :
    get_item_by_number stListed.nav 1 = stListed.nav.items.get? 0
    ∧ get_item_by_number stListed.nav 2 = stListed.nav.items.get? 1
    ∧ get_item_by_number stListed.nav 0 = none
    ∧ get_item_by_number stListed.nav 3 = none := by
  refine ⟨(C5_resolve_index.1 stListed.nav 1 (by decide) (by decide)).1, ?_, ?_, ?_⟩
  · exact (C5_resolve_index.1 stListed.nav 2 (by decide) (by decide)).1
  · exact C5_resolve_index.2 stListed.nav 0 (by decide)
  · exact C5_resolve_index.2 stListed.nav 3 (by decide)

/-- Claim C2: for every key triple, a cache `get` within `maxAge`
seconds of a `set` with the same triple returns the listing that was
set; a `get` more than `maxAge` seconds later returns absent and deletes
the stored record (its slot reads as absent afterwards, so a further
`get` at any time behaves as if the entry had never been set); eviction
touches no other slot, and outside the stale branch the store is
untouched. -/
theorem C2_cache_ttl :
    ∀ (α : Type) (st : CacheStore α) (url path user_id : String)
      (t now max_age : Int) (data : α),
      (now - t ≤ max_age →
        get_cache (set_cache st url path user_id t data) url path user_id now max_age
          = (some data, set_cache st url path user_id t data))
      ∧ (max_age < now - t →
          get_cache (set_cache st url path user_id t data) url path user_id now max_age
            = (none,
               storeErase (set_cache st url path user_id t data)
                 (get_cache_file (get_cache_key url path user_id)))
          ∧ storeLookup
              (storeErase (set_cache st url path user_id t data)
                (get_cache_file (get_cache_key url path user_id)))
              (get_cache_file (get_cache_key url path user_id)) = none
          ∧ (∀ now2 max_age2 : Int,
              get_cache
                (storeErase (set_cache st url path user_id t data)
                  (get_cache_file (get_cache_key url path user_id)))
                url path user_id now2 max_age2
              = (none,
                 storeErase (set_cache st url path user_id t data)
                   (get_cache_file (get_cache_key url path user_id)))))
      ∧ (∀ fn' : String, fn' ≠ get_cache_file (get_cache_key url path user_id) →
          storeLookup
            ((get_cache (set_cache st url path user_id t data) url path user_id
                now max_age).2) fn'
            = storeLookup (set_cache st url path user_id t data) fn') := by
  intro α st url path user_id t now max_age data
  refine ⟨?_, ?_, ?_⟩
  · intro h
    rw [get_cache, set_cache, storeLookup_write_self]
    simp only []
    rw [if_neg (by omega)]
  · intro h
    refine ⟨?_, storeLookup_erase_self _ _, ?_⟩
    · rw [get_cache, set_cache, storeLookup_write_self]
      simp only []
      rw [if_pos (by omega)]
    · intro now2 max_age2
      rw [get_cache, storeLookup_erase_self]
  · intro fn' hne
    rw [get_cache, set_cache, storeLookup_write_self]
    simp only []
    by_cases h : now - t > max_age
    · rw [if_pos h]
      exact storeLookup_erase_ne _ _ _ hne
    · rw [if_neg h]

/-- Witness for C2: setting alice's listing of `/` on `http://x` at time
0 and reading it back at time 0 (`maxAge` 300) returns the listing and
leaves the store as written; reading at time 301 instead evicts the
slot, which then reads as absent. -/
theorem C2_cache_ttl_witness :
    get_cache (set_cache (⟨[]⟩ : CacheStore Nat) "http://x" "/" "alice" 0 7)
        "http://x" "/" "alice" 0 300
      = (some 7, set_cache (⟨[]⟩ : CacheStore Nat) "http://x" "/" "alice" 0 7)
    ∧ get_cache (set_cache (⟨[]⟩ : CacheStore Nat) "http://x" "/" "alice" 0 7)
        "http://x" "/" "alice" 301 300
      = (none,
         storeErase (set_cache (⟨[]⟩ : CacheStore Nat) "http://x" "/" "alice" 0 7)
           (get_cache_file (get_cache_key "http://x" "/" "alice")))
    ∧ storeLookup
        (storeErase (set_cache (⟨[]⟩ : CacheStore Nat) "http://x" "/" "alice" 0 7)
          (get_cache_file (get_cache_key "http://x" "/" "alice")))
        (get_cache_file (get_cache_key "http://x" "/" "alice")) = none := by
  refine ⟨(C2_cache_ttl Nat ⟨[]⟩ "http://x" "/" "alice" 0 0 300 7).1 (by decide),
    ((C2_cache_ttl Nat ⟨[]⟩ "http://x" "/" "alice" 0 301 300 7).2.1 (by decide)).1,
    ((C2_cache_ttl Nat ⟨[]⟩ "http://x" "/" "alice" 0 301 300 7).2.1 (by decide)).2.1⟩

/-- Claim C3: resolution merges built-in defaults, then WebUI/admin
values, then per-user values.  With user-auth isolation enabled, an
empty (or unset, hence empty after the load-time merge) per-user
`serverURL`/`username`/`password`/`token` falls through to the global
default while a set per-user value wins, and `maxDisplayEntries`,
`allowedExtensions`, `previewEnabled` always come from the global
layer.  With isolation disabled, the per-user layer is skipped entirely
and only default+global apply. -/
theorem C3_config_resolution :
    (∀ (w : WebuiSettings) (u : UserConfig),
        w.require_user_auth.getD true = true →
        get_user_config w u =
          { alist_url :=
              if u.alist_url = "" then w.default_alist_url.getD "" else u.alist_url,
            username :=
              if u.username = "" then w.default_username.getD "" else u.username,
            password :=
              if u.password = "" then w.default_password.getD "" else u.password,
            token := if u.token = "" then w.default_token.getD "" else u.token,
            max_display_files := w.max_display_files.getD 20,
            allowed_extensions :=
              parse_allowed_extensions
                (w.allowed_extensions.getD (Sum.inl default_allowed_extensions)),
            enable_preview := w.enable_preview.getD true })
    ∧ (∀ (w : WebuiSettings) (u u' : UserConfig),
        w.require_user_auth.getD true = false →
        get_user_config w u = get_user_config w u'
        ∧ get_user_config w u =
            { alist_url := w.default_alist_url.getD "",
              username := w.default_username.getD "",
              password := w.default_password.getD "",
              token := w.default_token.getD "",
              max_display_files := w.max_display_files.getD 20,
              allowed_extensions :=
                parse_allowed_extensions
                  (w.allowed_extensions.getD (Sum.inl default_allowed_extensions)),
              enable_preview := w.enable_preview.getD true }) := by
  constructor
  · intro w u h
    rw [get_user_config]
    simp only [h, if_true]
    rw [fallthrough_eq, fallthrough_eq, fallthrough_eq, fallthrough_eq]
  · intro w u u' h
    constructor
    · rw [get_user_config, get_user_config]
      simp only [h, Bool.false_eq_true, if_false]
    · rw [get_user_config]
      simp only [h, Bool.false_eq_true, if_false]

/-- Witness for C3 at the spec's example: a user with no stored config
and WebUI default `http://x` resolves to `http://x`; after the user sets
`http://y`, their value wins; with isolation disabled the stored value
is ignored. -/
theorem C3_config_resolution_witness :
    (get_user_config webuiWithDefault userUnset).alist_url = "http://x"
    ∧ (get_user_config webuiWithDefault userSet).alist_url = "http://y"
    ∧ get_user_config
        { webuiWithDefault with require_user_auth := some false } userSet =
      get_user_config
        { webuiWithDefault with require_user_auth := some false } userUnset := by
  refine ⟨?_, ?_, ?_⟩
  · rw [C3_config_resolution.1 webuiWithDefault userUnset (by decide)]
    decide
  · rw [C3_config_resolution.1 webuiWithDefault userSet (by decide)]
    decide
  · exact (C3_config_resolution.2
      { webuiWithDefault with require_user_auth := some false }
      userSet userUnset (by decide)).1

/-- Claim C4: a transfer whose declared size exceeds the configured
limit (download default 50 MiB, upload default 100 MiB) fails with a
SizeExceeded report carrying the limit and the actual size, and the
remote-call trace is empty; a size at or below the limit passes the
check — the outcome is never SizeExceeded and the remote pipeline is
entered (the first recorded call is the download-locator request,
respectively the remote put). -/
theorem C4_size_limits :
    (∀ (file_name : String) (file_size : Nat) (current_path : String)
       (mds : Option Nat) (orc : DownloadOracle),
        mds.getD 50 * 1024 * 1024 < file_size →
        download_file file_name file_size current_path mds orc =
          (DownloadResult.sizeExceeded (mds.getD 50) file_size, []))
    ∧ (∀ (file_name : String) (file_size : Nat) (current_path : String)
         (mds : Option Nat) (orc : DownloadOracle),
        file_size ≤ mds.getD 50 * 1024 * 1024 →
        (∀ l s, (download_file file_name file_size current_path mds orc).1
          ≠ DownloadResult.sizeExceeded l s)
        ∧ (download_file file_name file_size current_path mds orc).2.head?
            = some (RemoteCall.getDownloadUrl (join_path current_path file_name)))
    ∧ (∀ (st : UserState) (cfg : EffectiveConfig) (file_name local_path : String)
         (file_size : Nat) (mus : Option Nat) (put_ok : Bool)
         (relist : Option (List Entry)),
        mus.getD 100 * 1024 * 1024 < file_size →
        upload_file st cfg file_name (some (local_path, file_size)) mus put_ok relist
          = (UploadResult.sizeExceeded (mus.getD 100) file_size, st, []))
    ∧ (∀ (st : UserState) (cfg : EffectiveConfig) (file_name local_path : String)
         (file_size : Nat) (mus : Option Nat) (put_ok : Bool)
         (relist : Option (List Entry)),
        file_size ≤ mus.getD 100 * 1024 * 1024 →
        (∀ l s,
          (upload_file st cfg file_name (some (local_path, file_size)) mus put_ok
            relist).1 ≠ UploadResult.sizeExceeded l s)
        ∧ (upload_file st cfg file_name (some (local_path, file_size)) mus put_ok
            relist).2.2.head?
            = some (RemoteCall.putFile st.upload.target_path file_name)) := by
  refine ⟨?_, ?_, ?_, ?_⟩
  · intro file_name file_size current_path mds orc h
    rw [download_file]
    simp only []
    rw [if_pos (by omega)]
  · intro file_name file_size current_path mds orc h
    rw [download_file]
    simp only []
    rw [if_neg (by omega)]
    cases orc.download_url with
    | none => exact ⟨fun l s => by simp, rfl⟩
    | some url =>
      simp only []
      by_cases hs : orc.http_status = 200
      · rw [if_pos hs]; exact ⟨fun l s => by simp, rfl⟩
      · rw [if_neg hs]; exact ⟨fun l s => by simp, rfl⟩
  · intro st cfg file_name local_path file_size mus put_ok relist h
    rw [upload_file]
    simp only []
    rw [if_pos (by omega)]
  · intro st cfg file_name local_path file_size mus put_ok relist h
    rw [upload_file]
    simp only []
    rw [if_neg (by omega)]
    by_cases hp : put_ok
    · rw [if_pos hp]
      cases relist with
      | none => exact ⟨fun l s => by simp, rfl⟩
      | some files => exact ⟨fun l s => by simp, rfl⟩
    · rw [if_neg hp]
      exact ⟨fun l s => by simp, rfl⟩

/-- Witness for C4: a 60 MiB file exceeds the default 50 MiB download
limit (no call recorded), a 1 MiB file passes; a 200 MiB upload exceeds
the default 100 MiB limit (no call recorded), a 1 MiB upload reaches
the remote put. -/
theorem C4_size_limits_witness :
    download_file "big.bin" 62914560 "/a" none orcOk =
      (DownloadResult.sizeExceeded 50 62914560, [])
    ∧ (download_file "small.bin" 1048576 "/a" none orcOk).2.head?
        = some (RemoteCall.getDownloadUrl (join_path "/a" "small.bin"))
    ∧ upload_file stRoot cfgX "big.bin" (some ("/tmp/f", 209715200)) none true none
        = (UploadResult.sizeExceeded 100 209715200, stRoot, [])
    ∧ (upload_file stRoot cfgX "small.bin" (some ("/tmp/f", 1048576)) none true
        none).2.2.head? = some (RemoteCall.putFile "/" "small.bin") := by
  refine ⟨C4_size_limits.1 "big.bin" 62914560 "/a" none orcOk (by decide),
    (C4_size_limits.2.1 "small.bin" 1048576 "/a" none orcOk (by decide)).2,
    C4_size_limits.2.2.1 stRoot cfgX "big.bin" "/tmp/f" 209715200 none true none
      (by decide), ?_⟩
  exact (C4_size_limits.2.2.2 stRoot cfgX "small.bin" "/tmp/f" 1048576 none true none
    (by decide)).2

/-- Counterexample to claim C6: a user one level deep whose relisting of
the previous path fails with a ConnectionFailure does NOT keep the
user-visible state unchanged — `quit` pops the ancestor stack before the
network call, so the popped path `"/a"` is lost. -/
theorem C6_counterexample :
    (quit_navigation stDeep cfgX netDown).1 = QuitResult.connectionFailure "/a"
    ∧ (quit_navigation stDeep cfgX netDown).2.1 ≠ stDeep
    ∧ (quit_navigation stDeep cfgX netDown).2.1.nav.parent_paths = []
    ∧ stDeep.nav.parent_paths = ["/a"] := by
  refine ⟨by decide, by decide, by decide, by decide⟩

/-- Claim C6 (amended): for the error outcomes of `goBack` other than a
relisting failure — an unconfigured user, or an empty ancestor stack —
the error is reported and the state is left fully unchanged; on a
ConnectionFailure while relisting the previous path, `currentPath`,
`indexedEntries` and the upload intent are unchanged but the ancestor
stack has lost its most recently pushed element (the pop precedes the
failed network call and is not undone). -/
theorem C6_error_frame :
    (∀ (st : UserState) (cfg : EffectiveConfig)
       (net : String → Option (List Entry)) (p : String),
        validate_config cfg = true →
        st.nav.parent_paths.getLast? = some p →
        net p = none →
        quit_navigation st cfg net =
          (QuitResult.connectionFailure p,
           { st with nav := { st.nav with
              parent_paths := st.nav.parent_paths.dropLast } },
           [RemoteCall.listFiles p]))
    ∧ (∀ (st : UserState) (cfg : EffectiveConfig)
         (net : String → Option (List Entry)),
        validate_config cfg = true →
        st.nav.parent_paths = [] →
        quit_navigation st cfg net = (QuitResult.alreadyAtRoot, st, []))
    ∧ (∀ (st : UserState) (cfg : EffectiveConfig)
         (net : String → Option (List Entry)),
        validate_config cfg = false →
        quit_navigation st cfg net = (QuitResult.notConfigured, st, [])) := by
  refine ⟨?_, ?_, ?_⟩
  · intro st cfg net p hcfg hlast hnet
    rw [quit_navigation, hcfg]
    simp only [Bool.not_true, Bool.false_eq_true, if_false, hlast, hnet]
  · intro st cfg net hcfg hempty
    rw [quit_navigation, hcfg]
    simp only [Bool.not_true, Bool.false_eq_true, if_false, hempty]
    rfl
  · intro st cfg net hcfg
    rw [quit_navigation, hcfg]
    rfl

/-- Witness for the amended C6 at the counterexample's input: the
failure keeps `currentPath`, items and upload intent while dropping the
popped ancestor, and the empty-stack case is a strict no-op. -/
theorem C6_error_frame_witness :
    quit_navigation stDeep cfgX netDown =
      (QuitResult.connectionFailure "/a",
       { stDeep with nav := { stDeep.nav with parent_paths := [] } },
       [RemoteCall.listFiles "/a"])
    ∧ quit_navigation stRoot cfgX netDown = (QuitResult.alreadyAtRoot, stRoot, []) := by
  constructor
  · rw [C6_error_frame.1 stDeep cfgX netDown "/a" (by decide) (by decide) rfl]
    decide
  · exact C6_error_frame.2.1 stRoot cfgX netDown (by decide) (by decide)

set_option maxRecDepth 100000 in
/-- Counterexample to claim C7: clearing alice's cache does NOT delete
the entry `set_cache` stored for alice's own triple
(`http://x`, `/`, `alice`) — its digest neither contains the raw id nor
shares the 8-digit test-digest heading — while clearing for user `"0"`
DOES delete bob's entry, because `"0"` occurs inside
`md5("test:test:0")` and then every `.json` file is removed.  Matching
is heuristic, not exact. -/
theorem C7_counterexample :
    (storeLookup (clear_cache aliceStore (some "alice")) aliceFileName).isSome = true
    ∧ (clear_cache bobStore (some "0")).files = [] := by
  refine ⟨by decide, by decide⟩

/-- Claim C7 (amended): `clear(userID)` removes exactly the `.json`
entries matched by the digest heuristic — the raw `userID` occurring as
a substring of `md5("test:test:" + userID)` (in which case every entry
matches, whatever user owns it) or the entry's key starting with the
first 8 hex digits of that test digest; it does not perform exact
matching on the stored user component, and in general leaves a user's
own entries (whose keys are digests of real triples) in place. -/
theorem C7_clear_cache_heuristic :
    ∀ (α : Type) (st : CacheStore α) (uid : String),
      (clear_cache st (some uid)).files =
        st.files.filter (fun p => !(clear_match p.1 uid)) := by
  intro α st uid
  rfl

/-- Claim C8: the deferred auto-cancel re-checks the current upload
state when it fires — a no-op when `waiting` is already false — and
after it fires `waiting` is false in every case; in particular when the
wait was started and no file arrived during the 600 seconds before the
timer event, the flag flips to false automatically, and a file
attachment arriving while `waiting` is false is ignored with no upload
attempted. -/
theorem C8_upload_timeout :
    (∀ st : UploadState, st.waiting = false →
        upload_step st UploadEvent.timerFire = (st, false))
    ∧ (∀ st : UploadState,
        (upload_step st UploadEvent.timerFire).1.waiting = false)
    ∧ (∀ (st : UploadState) (configured upload_ok : Bool), st.waiting = false →
        upload_step st (UploadEvent.fileArrive configured upload_ok) = (st, false))
    ∧ (∀ (st : UploadState) (p : String) (configured upload_ok : Bool),
        upload_run st
          [UploadEvent.startUpload p, UploadEvent.timerFire,
           UploadEvent.fileArrive configured upload_ok]
          = (set_user_upload_waiting false "/", false)) := by
  refine ⟨?_, ?_, ?_, ?_⟩
  · intro st h
    simp [upload_step, h]
  · intro st
    by_cases h : st.waiting
    · simp [upload_step, h, set_user_upload_waiting]
    · simp [upload_step, h]
  · intro st configured upload_ok h
    simp [upload_step, h]
  · intro st p configured upload_ok
    simp [upload_run, upload_step, set_user_upload_waiting]

/-- Witness for C8: starting the wait at `/docs` and letting the timer
fire clears `waiting`; the file arriving afterwards is ignored and no
upload is ever attempted; and firing the timer on an already-cleared
state changes nothing. -/
theorem C8_upload_timeout_witness :
    upload_run fresh_upload_state
      [UploadEvent.startUpload "/docs", UploadEvent.timerFire,
       UploadEvent.fileArrive true true]
      = (set_user_upload_waiting false "/", false)
    ∧ upload_step fresh_upload_state UploadEvent.timerFire
        = (fresh_upload_state, false)
    ∧ upload_step fresh_upload_state (UploadEvent.fileArrive true true)
        = (fresh_upload_state, false) := by
  refine ⟨C8_upload_timeout.2.2.2 fresh_upload_state "/docs" true true,
    C8_upload_timeout.1 fresh_upload_state (by decide),
    C8_upload_timeout.2.2.1 fresh_upload_state true true (by decide)⟩

/-- Claim C9: the search command never modifies the user's navigation
(or upload) state — the state threaded through `search_files` comes out
identical for every input — so index resolution after a search still
reads the last directory listing, not the search's own numbering. -/
theorem C9_search_frame :
    ∀ (st : UserState) (cfg : EffectiveConfig) (keyword : String)
      (results : List Entry),
      (search_files st cfg keyword results).2 = st
      ∧ (∀ n : Int,
          get_item_by_number (search_files st cfg keyword results).2.nav n
            = get_item_by_number st.nav n) := by
  intro st cfg keyword results
  have hst : (search_files st cfg keyword results).2 = st := by
    rw [search_files]
    by_cases h1 : keyword = ""
    · rw [if_pos h1]
    · rw [if_neg h1]
      by_cases h2 : validate_config cfg
      · simp only [h2, Bool.not_true, Bool.false_eq_true, if_false]
        by_cases h3 : results ≠ []
        · rw [if_pos h3]
        · rw [if_neg h3]
      · simp only [Bool.not_eq_true] at h2
        simp only [h2, Bool.not_false, if_true]
  exact ⟨hst, fun n => by rw [hst]⟩

/-- Claim C10: when the download command's digit argument resolves to a
directory entry, it returns an error, records no remote call and leaves
the navigation and upload state untouched; the download pipeline is
entered only when the resolved entry is a file (and even then the state
is left unchanged). -/
theorem C10_download_directory_guard :
    ∀ (st : UserState) (cfg : EffectiveConfig) (arg : String)
      (mds : Option Nat) (orc : DownloadOracle) (item : Entry),
      validate_config cfg = true →
      strIsDigit arg = true →
      get_item_by_number st.nav (strToNat arg : Int) = some item →
      (item.is_dir = true →
        get_download_link st cfg arg mds orc =
          (DownloadCmdResult.isDirectoryError (strToNat arg), st, []))
      ∧ (item.is_dir = false →
        get_download_link st cfg arg mds orc =
          (DownloadCmdResult.fileDownload
            (download_file item.name item.size st.nav.current_path mds orc).1,
           st,
           (download_file item.name item.size st.nav.current_path mds orc).2)) := by
  intro st cfg arg mds orc item hcfg hdigit hitem
  constructor
  · intro hdir
    rw [get_download_link, hcfg]
    simp only [Bool.not_true, Bool.false_eq_true, if_false, hdigit, if_true, hitem,
      hdir]
  · intro hdir
    rw [get_download_link, hcfg]
    simp only [Bool.not_true, Bool.false_eq_true, if_false, hdigit, if_true, hitem,
      hdir]

/-- Witness for C10: with the directory at index 1 and the file at
index 2, `download 1` is rejected with no calls and no state change,
while `download 2` enters the download pipeline. -/
theorem C10_download_directory_guard_witness :
    get_download_link stListed cfgX "1" none orcOk =
      (DownloadCmdResult.isDirectoryError 1, stListed, [])
    ∧ get_download_link stListed cfgX "2" none orcOk =
        (DownloadCmdResult.fileDownload
          (download_file "r.txt" 3 "/a" none orcOk).1, stListed,
         (download_file "r.txt" 3 "/a" none orcOk).2) := by
  constructor
  · rw [(C10_download_directory_guard stListed cfgX "1" none orcOk dirEntry
      (by decide) (by decide) (by decide)).1 (by decide)]
    decide
  · rw [(C10_download_directory_guard stListed cfgX "2" none orcOk fileEntry
      (by decide) (by decide) (by decide)).2 (by decide)]
    rfl
